import Mathlib

/-!
Shallow embedding of the permission / notification / audit model of the
SindGestor condominium-management application, together with theorems that
check the natural-language specification against the code.

Source files embedded here:
  * `src/types.ts`                      (data model, module keys)
  * `src/services/geminiService.ts`     (the `db` gateway object)
  * `src/components/TaskManager.tsx`    (task UI handlers)
  * `src/unnamed/part_001`              (Sidebar.hasAccess, Structural handlers)
  * `src/unnamed/part_004`              (AdminPanel permission/notification table)
  * `src/unnamed/part_005`              (ProtectedRoute)

JavaScript `Record<string, T>` maps are embedded as association lists
`List (String × T)` looked up by first match; `undefined` is `Option.none`;
the JS falsy coercions that the code relies on (`x || default`, `if (x)`)
are embedded explicitly at each use site.
-/

namespace SindGestor

/-- `PermissionLevel` enum from `src/types.ts`. -/
inductive PermissionLevel
  | NONE
  | READ_ONLY
  | READ_WRITE
  | FULL_ACCESS
deriving DecidableEq, Repr

/-- `UserRole` enum from `src/types.ts`. -/
inductive UserRole
  | ADMIN
  | RESIDENT
  | STAFF
deriving DecidableEq, Repr

/-- Module-key constants `MODULES` from `src/types.ts`. -/
def MODULES_WATER : String := "module_water"

def MODULES_TASKS : String := "module_tasks"

def MODULES_DOCUMENTS : String := "module_documents"

def MODULES_EQUIPMENT : String := "module_equipment"

def MODULES_STRUCTURAL : String := "module_structural"

def MODULES_SUPPLIERS : String := "module_suppliers"

def MODULES_ADMIN_PANEL : String := "module_admin_panel"

/-- `Membership` from `src/types.ts`: permission and notification maps are
`Record<string, _>` objects, embedded as association lists. -/
structure Membership where
  enterpriseId : String
  enterpriseName : String
  role : UserRole
  permissions : List (String × PermissionLevel)
  notifications : List (String × Bool)
deriving DecidableEq, Repr

/-- Model of the JS runtime primitive `String.prototype.toLowerCase`
(per-character case folding), defined structurally so it evaluates. -/
def toLowerCase (s : String) : String := String.mk (s.data.map Char.toLower)

/-- Model of the JS runtime primitive `String.prototype.trim` (strip
leading and trailing whitespace). -/
def trimString (s : String) : String :=
  String.mk (((s.data.dropWhile Char.isWhitespace).reverse.dropWhile Char.isWhitespace).reverse)

/-- Model of the JS idiom `email.split('@')[0]`: the segment before the
first `@` (the whole string when there is none). -/
def emailLocalPart (s : String) : String :=
  String.mk (s.data.takeWhile (fun c => c != '@'))

/-- JS property access `map[key]` on a `Record`: first binding if present,
`undefined` (= `none`) otherwise. -/
def recordGet {α : Type} (map : List (String × α)) (key : String) : Option α :=
  (map.find? (fun p => p.1 == key)).map (fun p => p.2)

/-- The permission-resolution idiom used throughout the source:
`membership.permissions[moduleKey] || PermissionLevel.NONE`
(all `PermissionLevel` string values are truthy, so `||` only replaces the
absent/undefined case). -/
def resolvePermission (m : Membership) (moduleKey : String) : PermissionLevel :=
  (recordGet m.permissions moduleKey).getD PermissionLevel.NONE

/-- `Sidebar.hasAccess` (src/unnamed/part_001, line 45):
`const level = perms[module]; return level && level !== PermissionLevel.NONE;`
An absent key gives `undefined` (falsy); a present `NONE` fails the second
conjunct; any other level is truthy and distinct from `NONE`. -/
def hasAccess (perms : List (String × PermissionLevel)) (moduleKey : String) : Bool :=
  match recordGet perms moduleKey with
  | none => false
  | some level => level != PermissionLevel.NONE

/-- The two outcomes of `ProtectedRoute` (src/unnamed/part_005): render the
children, or `<Navigate to="/" replace />`. -/
inductive RouteResult
  | content
  | redirectHome
deriving DecidableEq, Repr

/-- `ProtectedRoute` (src/unnamed/part_005, lines 459-474): without a module
key it renders the children; otherwise it resolves
`membership.permissions[module] || PermissionLevel.NONE` and redirects to `/`
exactly when that value is `NONE`. -/
def ProtectedRoute (moduleKey : Option String) (membership : Membership) : RouteResult :=
  match moduleKey with
  | none => RouteResult.content
  | some key =>
      let userLevel := (recordGet membership.permissions key).getD PermissionLevel.NONE
      if userLevel = PermissionLevel.NONE then RouteResult.redirectHome
      else RouteResult.content

/-- Task status values from `src/types.ts`. -/
inductive TaskStatus
  | PENDING
  | IN_PROGRESS
  | COMPLETED
deriving DecidableEq, Repr

/-- `Task` from `src/types.ts` (the fields consulted by the embedded
handlers and gateway functions; `assigned_to` is stored lowercased by
`db.addTask`/`db.updateTask` but the handlers re-lowercase defensively). -/
structure Task where
  id : String
  enterpriseId : String
  title : String
  assignedTo : String
  status : TaskStatus
  dueDate : String
  description : String
  notifyAssignee : Option Bool
deriving DecidableEq, Repr

/-- The task permission computed at the top of `TaskManager.handleEditClick`
and `TaskManager.handleToggleStatus` (src/components/TaskManager.tsx,
lines 241-242 and 290-291):
`memberships.find(m => m.enterpriseId === task.enterpriseId)` followed by
`taskMembership?.permissions[MODULES.TASKS] || PermissionLevel.NONE`. -/
def taskPermOf (memberships : List Membership) (task : Task) : PermissionLevel :=
  match memberships.find? (fun m => m.enterpriseId == task.enterpriseId) with
  | none => PermissionLevel.NONE
  | some taskMembership => resolvePermission taskMembership MODULES_TASKS

/-- Outcome of `TaskManager.handleEditClick`: either one of the two alert
messages (no modal, no mutation possible) or the edit modal opens. -/
inductive EditClickResult
  | denyNoWritePermission
  | denyNotOwner
  | proceedOpenModal
deriving DecidableEq, Repr

/-- `TaskManager.handleEditClick` (src/components/TaskManager.tsx,
lines 240-270): rejects when the holder's level on the tasks module is not
READ_WRITE/FULL_ACCESS; then, for a non-FULL_ACCESS holder, rejects when
`task.assignedTo.toLowerCase() !== userEmail.toLowerCase()`; otherwise it
opens the edit modal. -/
def handleEditClick (memberships : List Membership) (userEmail : String)
    (task : Task) : EditClickResult :=
  let taskPerm := taskPermOf memberships task
  let taskCanWrite := taskPerm == PermissionLevel.READ_WRITE
      || taskPerm == PermissionLevel.FULL_ACCESS
  if !taskCanWrite then EditClickResult.denyNoWritePermission
  else if taskPerm != PermissionLevel.FULL_ACCESS
      && toLowerCase task.assignedTo != toLowerCase userEmail then
    EditClickResult.denyNotOwner
  else EditClickResult.proceedOpenModal

/-- Outcome of `TaskManager.handleToggleStatus`: either no server call at
all, or a `db.updateTask(task.id, { status: newStatus }, ...)` call. -/
inductive ToggleStatusResult
  | noServerCall
  | updateTaskCall (id : String) (newStatus : TaskStatus)
deriving DecidableEq, Repr

/-- `TaskManager.handleToggleStatus` (src/components/TaskManager.tsx,
lines 289-303): same permission and ownership guards as `handleEditClick`
(silent returns instead of alerts), then toggles COMPLETED/PENDING via
`db.updateTask`. -/
def handleToggleStatus (memberships : List Membership) (userEmail : String)
    (task : Task) : ToggleStatusResult :=
  let taskPerm := taskPermOf memberships task
  let taskCanWrite := taskPerm == PermissionLevel.READ_WRITE
      || taskPerm == PermissionLevel.FULL_ACCESS
  if !taskCanWrite then ToggleStatusResult.noServerCall
  else if taskPerm != PermissionLevel.FULL_ACCESS
      && toLowerCase task.assignedTo != toLowerCase userEmail then
    ToggleStatusResult.noServerCall
  else
    let newStatus := if task.status == TaskStatus.COMPLETED then TaskStatus.PENDING
      else TaskStatus.COMPLETED
    ToggleStatusResult.updateTaskCall task.id newStatus

/-- Structural-issue status values from `src/types.ts`. -/
inductive IssueStatus
  | REPORTED
  | IN_PROGRESS
  | RESOLVED
deriving DecidableEq, Repr

/-- `Structural.handleStatusChange` (src/unnamed/part_001, lines 293-299).
The component receives only `permissionLevel` (plus the issue id and the new
status); `canWrite` is `permissionLevel === READ_WRITE || permissionLevel
=== FULL_ACCESS` (line 190). When `canWrite` holds the handler immediately
calls `db.updateStructuralIssueStatus(id, newStatus, ...)` — the issue's
`reportedBy` field and the holder's identity are never consulted. The
result is the server call performed, or `none` when no call is made. -/
def handleStatusChange (permissionLevel : PermissionLevel) (id : String)
    (newStatus : IssueStatus) : Option (String × IssueStatus) :=
  let canWrite := permissionLevel == PermissionLevel.READ_WRITE
      || permissionLevel == PermissionLevel.FULL_ACCESS
  if canWrite then some (id, newStatus) else none

/-- A stored row of the `water_readings` table (the columns consulted by
`db.addWaterReading`). Meter values are embedded as integers. -/
structure WaterRow where
  enterpriseId : String
  unit : String
  date : String
  reading : Int
deriving DecidableEq, Repr

/-- The enterprise `settings` blob: `settings?.waterLimit` is `none` when
the key is absent. -/
structure EnterpriseSettings where
  waterLimit : Option Int
deriving DecidableEq, Repr

/-- The remote query
`.order('date', { ascending: false }).limit(1)` over a row set: the first
row of a stable descending sort by `date`, i.e. the earliest-stored row
among those with the maximal date. -/
def pickLatest : List WaterRow → Option WaterRow
  | [] => none
  | r :: t =>
      match pickLatest t with
      | none => some r
      | some b => if r.date < b.date then some b else some r

/-- Step 1 of `db.addWaterReading` (src/services/geminiService.ts, line 547):
the previous reading for the unit — the `reading` column of the row with the
latest `date` among rows of the same enterprise and unit. -/
def latestReadingFor (rows : List WaterRow) (enterpriseId unit : String) : Option Int :=
  (pickLatest (rows.filter (fun r => r.enterpriseId == enterpriseId && r.unit == unit))).map
    (fun r => r.reading)

/-- The observable outcome of `db.addWaterReading` on the success path
(src/services/geminiService.ts, lines 544-573): the inserted
`previous_reading` value, the computed consumption, the effective limit
`ent?.settings?.waterLimit || 999999` (JS `||`: absent, and the falsy
value 0, both default to 999999), and whether the high-consumption alert
branch (`consumption > limit`) fires. -/
structure WaterInsertOutcome where
  previousReading : Int
  consumption : Int
  limit : Int
  alertSent : Bool
deriving DecidableEq, Repr

/-- `db.addWaterReading` (src/services/geminiService.ts, lines 544-573),
success path: `previousReadingValue` is the latest stored reading for the
unit, defaulting to the new reading itself when no row exists;
`consumption = reading.reading - previousReadingValue`;
`limit = ent?.settings?.waterLimit || 999999`; the alert is dispatched
exactly when `consumption > limit`. -/
def addWaterReading (rows : List WaterRow) (settings : EnterpriseSettings)
    (enterpriseId unit : String) (reading : Int) : WaterInsertOutcome :=
  let previousReadingValue := (latestReadingFor rows enterpriseId unit).getD reading
  let consumption := reading - previousReadingValue
  let limit : Int :=
    match settings.waterLimit with
    | none => 999999
    | some l => if l = 0 then 999999 else l
  { previousReading := previousReadingValue
    consumption := consumption
    limit := limit
    alertSent := consumption > limit }

/-- Insertion into a list sorted by the boolean relation `le`. -/
def orderedInsert {α : Type} (le : α → α → Bool) (a : α) : List α → List α
  | [] => [a]
  | b :: t => if le a b then a :: b :: t else b :: orderedInsert le a t

/-- Insertion sort by the boolean relation `le`: embeds the remote
`.order(column)` clause of a query. -/
def orderedSort {α : Type} (le : α → α → Bool) : List α → List α
  | [] => []
  | a :: t => orderedInsert le a (orderedSort le t)

/-- `db.getTasks` (src/services/geminiService.ts, lines 588-596) over a row
set: filter by `enterprise_id`; when the caller's permission level is not
FULL_ACCESS, additionally filter by
`assigned_to = userEmail.toLowerCase()`; order by `due_date` ascending. -/
def getTasks (rows : List Task) (userEmail : String)
    (permissionLevel : PermissionLevel) (currentEnterpriseId : String) : List Task :=
  let q := rows.filter (fun t => t.enterpriseId == currentEnterpriseId)
  let q := if permissionLevel != PermissionLevel.FULL_ACCESS then
      q.filter (fun t => t.assignedTo == toLowerCase userEmail)
    else q
  orderedSort (fun a b => a.dueDate ≤ b.dueDate) q

/-- A stored row of the `memberships` table (the columns consulted by
`db.deleteMember` and `db.login`). -/
structure MembershipRow where
  enterpriseId : String
  userEmail : String
  userName : Option String
  role : UserRole
  permissions : Option (List (String × PermissionLevel))
  notifications : Option (List (String × Bool))
deriving DecidableEq, Repr

/-- `db.deleteMember` (src/services/geminiService.ts, lines 452-463): the
remote delete
`.from('memberships').delete().eq('enterprise_id', currentEnterpriseId).eq('user_email', targetEmail)`
removes exactly the rows matching both equalities; the surviving table is
the filter keeping every other row, in order. -/
def deleteMember (rows : List MembershipRow) (currentEnterpriseId targetEmail : String) :
    List MembershipRow :=
  rows.filter (fun m => !(m.enterpriseId == currentEnterpriseId && m.userEmail == targetEmail))

/-- A stored row of the `app_users` table. `name` may be null. -/
structure AppUser where
  email : String
  name : Option String
  passwordHash : String
deriving DecidableEq, Repr

/-- A stored row of the `enterprises` table (`name` may be null). -/
structure EnterpriseRow where
  id : String
  name : Option String
deriving DecidableEq, Repr

/-- The in-memory `User` produced by `db.login` (src/types.ts). -/
structure User where
  id : String
  email : String
  name : String
  memberships : List Membership
deriving DecidableEq, Repr

/-- JS `x || fallback` where `x` is a nullable string: null and the empty
string are falsy. -/
def strOrElse (x : Option String) (fallback : String) : String :=
  match x with
  | none => fallback
  | some s => if s = "" then fallback else s

/-- The membership mapping inside `db.login` (src/services/geminiService.ts,
lines 274-285): join the enterprise name (`'Desconhecido'` when the join
yields nothing, with one hard-coded rename), and default absent
`permissions`/`notifications` to the empty map. -/
def loginMapMembership (enterprises : List EnterpriseRow) (m : MembershipRow) : Membership :=
  let entName0 := strOrElse ((enterprises.find? (fun e => e.id == m.enterpriseId)).bind
    (fun e => e.name)) "Desconhecido"
  let entName := if entName0 = "Condomínio de Condominio" then "Condomínio Assembleia 66"
    else entName0
  { enterpriseId := m.enterpriseId
    enterpriseName := entName
    role := m.role
    permissions := m.permissions.getD []
    notifications := m.notifications.getD [] }

/-- `db.login` (src/services/geminiService.ts, lines 244-300).
`hashPassword` is SHA-256 via the browser's `crypto.subtle` — an external
primitive — so the hash is a parameter here. The flow: normalize the email
(`trim().toLowerCase()`), look for an `app_users` row matching both the
normalized email and the hash (null on failure); then fetch the
`memberships` rows for the normalized email and return null when there are
none; otherwise build the `User` (name falls back to the email's local
part). The `LOGIN` audit writes are side effects not represented in the
return value. -/
def login (hashPassword : String → String) (users : List AppUser)
    (membershipRows : List MembershipRow) (enterprises : List EnterpriseRow)
    (email password : String) : Option User :=
  let hashedPassword := hashPassword password
  let normalizedEmail := toLowerCase (trimString email)
  match users.find? (fun u => u.email == normalizedEmail
      && u.passwordHash == hashedPassword) with
  | none => none
  | some userData =>
      let data := membershipRows.filter (fun m => m.userEmail == normalizedEmail)
      if data.isEmpty then none
      else
        some
          { id := normalizedEmail
            email := normalizedEmail
            name := strOrElse userData.name (emailLocalPart normalizedEmail)
            memberships := data.map (loginMapMembership enterprises) }

/-- The storage string of a task status. -/
def TaskStatus.toStr : TaskStatus → String
  | TaskStatus.PENDING => "PENDING"
  | TaskStatus.IN_PROGRESS => "IN_PROGRESS"
  | TaskStatus.COMPLETED => "COMPLETED"

/-- The storage string of a structural-issue status. -/
def IssueStatus.toStr : IssueStatus → String
  | IssueStatus.REPORTED => "REPORTED"
  | IssueStatus.IN_PROGRESS => "IN_PROGRESS"
  | IssueStatus.RESOLVED => "RESOLVED"

/-- The user-observable side effects of a gateway call:
`logAction` appends (audit), `sendMockEmail` calls (email), `handleError`
alerts, and the client-side validation alerts that precede any network
call. Remote writes themselves are represented by the control flow of each
trace, with the success of the decisive write a boolean input. -/
inductive Event
  | audit (enterpriseId userEmail action details : String)
  | email (recipient subject : String)
  | errorAlert
  | validationAlert
deriving DecidableEq, Repr

/-- Whether an event is an audit-log record. -/
def isAuditEvt : Event → Bool
  | Event.audit _ _ _ _ => true
  | _ => false

/-- Whether an event is a notification email. -/
def isEmailEvt : Event → Bool
  | Event.email _ _ => true
  | _ => false

/-- Number of audit records in a trace. -/
def countAudit (evts : List Event) : Nat := evts.countP isAuditEvt

/-- Number of notification emails in a trace. -/
def countEmail (evts : List Event) : Nat := evts.countP isEmailEvt

/-- The partial-update argument of `db.updateTask` (`Partial<Task>`):
absent fields are `none`. -/
structure TaskUpdate where
  title : Option String
  description : Option String
  assignedTo : Option String
  status : Option TaskStatus
  dueDate : Option String
  notifyAssignee : Option Bool
deriving DecidableEq, Repr

/-- One mutating call of the module gateways in
`src/services/geminiService.ts` together with its inputs, the values any
in-call lookup returns (`stored…` fields), and the success of its remote
write(s). Every mutating operation of the `db` object's module gateways is
enumerated. -/
inductive GatewayOp
  | addUnit (unitName enterpriseId userEmail : String) (ok : Bool)
  | deleteUnit (unitName enterpriseId userEmail : String) (ok : Bool)
  | addWaterReading (rows : List WaterRow) (settings : EnterpriseSettings)
      (enterpriseId unit : String) (reading : Int) (userEmail : String) (ok : Bool)
  | updateWaterReading (id enterpriseId userEmail : String) (ok : Bool)
  | deleteWaterReading (id enterpriseId userEmail : String) (ok : Bool)
  | addTask (task : Task) (userEmail : String) (ok : Bool)
  | updateTask (id : String) (task : TaskUpdate) (storedTitle : Option String)
      (enterpriseId userEmail : String) (ok : Bool)
  | deleteTask (id : String) (storedTitle : Option String)
      (enterpriseId userEmail : String) (ok : Bool)
  | addTaskComment (taskId userEmail userName content : String) (ok : Bool)
  | addTaskAttachment (taskId : String) (ok : Bool)
  | addCustomAssignee (name enterpriseId : String) (ok : Bool)
  | deleteCustomAssignee (name enterpriseId : String) (ok : Bool)
  | addEquipment (name enterpriseId userEmail : String) (ok : Bool)
  | updateEquipment (id enterpriseId userEmail : String) (ok : Bool)
  | deleteEquipment (id : String) (storedName : Option String)
      (enterpriseId userEmail : String) (ok : Bool)
  | addEquipmentImage (equipmentId : String) (ok : Bool)
  | addEquipmentCategory (name enterpriseId : String) (ok : Bool)
  | updateEquipmentCategory (oldName newName enterpriseId userEmail : String)
      (catOk eqOk : Bool)
  | deleteEquipmentCategory (name enterpriseId : String) (ok : Bool)
  | addEquipmentLocation (name enterpriseId : String) (ok : Bool)
  | updateEquipmentLocation (oldName newName enterpriseId userEmail : String)
      (locOk eqOk : Bool)
  | deleteEquipmentLocation (name enterpriseId : String) (ok : Bool)
  | addMaintenanceLog (equipmentId userEmail enterpriseId : String) (ok : Bool)
  | updateMaintenanceLog (id enterpriseId userEmail : String) (ok : Bool)
  | deleteMaintenanceLog (id enterpriseId userEmail : String) (ok : Bool)
  | addDocument (title enterpriseId userEmail : String) (ok : Bool)
  | updateDocument (id enterpriseId userEmail : String) (ok : Bool)
  | deleteDocument (id : String) (storedTitle : Option String)
      (enterpriseId userEmail : String) (ok : Bool)
  | addDocumentCategory (name enterpriseId : String) (ok : Bool)
  | updateDocumentCategory (oldName newName enterpriseId userEmail : String)
      (catOk docOk : Bool)
  | deleteDocumentCategory (name enterpriseId : String) (ok : Bool)
  | addStructuralIssue (title location reportedBy : String)
      (notifyAdmin : Option Bool) (photos : Nat) (enterpriseId userEmail : String)
      (ok : Bool)
  | updateStructuralIssue (id enterpriseId userEmail : String) (ok : Bool)
  | updateStructuralIssueStatus (id : String) (status : IssueStatus)
      (enterpriseId userEmail : String) (ok : Bool)
  | deleteStructuralIssue (id enterpriseId userEmail : String) (ok : Bool)
  | addStructuralPhoto (issueId : String) (ok : Bool)
  | deleteStructuralPhoto (photoId : String) (ok : Bool)
  | registerMember (enterpriseId currentUserEmail email role : String)
      (userExists hasPassword createOk ok : Bool)
  | updateMember (enterpriseId currentUserEmail targetEmail : String) (ok : Bool)
  | deleteMember (enterpriseId currentUserEmail targetEmail : String) (ok : Bool)
  | updateEnterpriseSettings (enterpriseId userEmail : String) (ok : Bool)

/-- The event trace of each gateway call, read off the corresponding
function body in `src/services/geminiService.ts`. Each branch mirrors the
source: `logAction` exactly where the source calls it (guarded by the
success of the remote write it follows), `handleError` alerts on failures,
`sendMockEmail` under the source's own conditions. -/
def gatewayTrace : GatewayOp → List Event
  | GatewayOp.addUnit unitName eid user ok =>
      if ok then [Event.audit eid user "CRIAR_UNIDADE" ("Nova unidade: " ++ unitName)]
      else [Event.errorAlert]
  | GatewayOp.deleteUnit unitName eid user ok =>
      if ok then [Event.audit eid user "EXCLUIR_UNIDADE" ("Excluiu unidade: " ++ unitName)]
      else [Event.errorAlert]
  | GatewayOp.addWaterReading rows settings eid unit reading user ok =>
      if ok then
        let outcome := addWaterReading rows settings eid unit reading
        [Event.audit eid user "REGISTRAR_LEITURA"
            ("Unidade " ++ unit ++ ": " ++ toString reading ++ "m³")]
          ++ (if outcome.alertSent then [Event.email user "Alerta de Consumo Elevado"] else [])
      else [Event.errorAlert]
  | GatewayOp.updateWaterReading id eid user ok =>
      if ok then [Event.audit eid user "EDITAR_LEITURA"
        ("Atualizou leitura ID " ++ id.take 6)]
      else [Event.errorAlert]
  | GatewayOp.deleteWaterReading id eid user ok =>
      if ok then [Event.audit eid user "EXCLUIR_LEITURA"
        ("Removeu leitura ID " ++ id.take 6)]
      else [Event.errorAlert]
  | GatewayOp.addTask task user ok =>
      if task.assignedTo = "" then [Event.validationAlert]
      else if ok then
        [Event.audit task.enterpriseId user "CRIAR_TAREFA"
            ("Tarefa: \"" ++ task.title ++ "\" para " ++ task.assignedTo)]
          ++ (if task.notifyAssignee ≠ some false then
              [Event.email task.assignedTo "Nova Tarefa Atribuída"] else [])
      else [Event.errorAlert]
  | GatewayOp.updateTask _ task storedTitle eid user ok =>
      let taskTitle :=
        match task.title with
        | some t => if t = "" then strOrElse storedTitle "Desconhecida" else t
        | none => strOrElse storedTitle "Desconhecida"
      if ok then
        [Event.audit eid user "ATUALIZAR_TAREFA"
            ("Tarefa \"" ++ taskTitle ++ "\"" ++
              (match task.status with
              | some s => " -> Status: " ++ s.toStr
              | none => ""))]
          ++ (match task.notifyAssignee, task.assignedTo with
              | some true, some a => if a = "" then [] else [Event.email a "Tarefa Atualizada"]
              | _, _ => [])
      else [Event.errorAlert]
  | GatewayOp.deleteTask id storedTitle eid user ok =>
      if ok then [Event.audit eid user "EXCLUIR_TAREFA"
        ("Excluiu tarefa: \"" ++ strOrElse storedTitle id ++ "\"")]
      else [Event.errorAlert]
  | GatewayOp.addTaskComment _ _ _ _ ok => if ok then [] else [Event.errorAlert]
  | GatewayOp.addTaskAttachment _ ok => if ok then [] else [Event.errorAlert]
  | GatewayOp.addCustomAssignee _ _ ok => if ok then [] else [Event.errorAlert]
  | GatewayOp.deleteCustomAssignee _ _ ok => if ok then [] else [Event.errorAlert]
  | GatewayOp.addEquipment name eid user ok =>
      if ok then [Event.audit eid user "ADICIONAR_EQUIPAMENTO" ("Equipamento: " ++ name)]
      else [Event.errorAlert]
  | GatewayOp.updateEquipment id eid user ok =>
      if ok then [Event.audit eid user "ATUALIZAR_EQUIPAMENTO"
        ("Atualizou equipamento ID " ++ id.take 8)]
      else [Event.errorAlert]
  | GatewayOp.deleteEquipment id storedName eid user ok =>
      if ok then [Event.audit eid user "EXCLUIR_EQUIPAMENTO"
        ("Excluiu equipamento: " ++ strOrElse storedName id)]
      else [Event.errorAlert]
  | GatewayOp.addEquipmentImage _ ok => if ok then [] else [Event.errorAlert]
  | GatewayOp.addEquipmentCategory _ _ ok => if ok then [] else [Event.errorAlert]
  | GatewayOp.updateEquipmentCategory oldName newName eid user catOk eqOk =>
      if !catOk then [Event.errorAlert]
      else if eqOk then [Event.audit eid user "EDITAR_CATEGORIA"
        ("Renomeou categoria \"" ++ oldName ++ "\" para \"" ++ newName ++ "\"")]
      else []
  | GatewayOp.deleteEquipmentCategory _ _ ok => if ok then [] else [Event.errorAlert]
  | GatewayOp.addEquipmentLocation _ _ ok => if ok then [] else [Event.errorAlert]
  | GatewayOp.updateEquipmentLocation oldName newName eid user locOk eqOk =>
      if !locOk then [Event.errorAlert]
      else if eqOk then [Event.audit eid user "EDITAR_LOCAL"
        ("Renomeou local \"" ++ oldName ++ "\" para \"" ++ newName ++ "\"")]
      else []
  | GatewayOp.deleteEquipmentLocation _ _ ok => if ok then [] else [Event.errorAlert]
  | GatewayOp.addMaintenanceLog equipmentId user eid ok =>
      if ok then [Event.audit eid user "REGISTRAR_MANUTENCAO"
        ("Manutenção em equipamento ID " ++ equipmentId)]
      else [Event.errorAlert]
  | GatewayOp.updateMaintenanceLog id eid user ok =>
      if ok then [Event.audit eid user "EDITAR_MANUTENCAO" ("Editou log ID " ++ id.take 8)]
      else [Event.errorAlert]
  | GatewayOp.deleteMaintenanceLog id eid user ok =>
      if ok then [Event.audit eid user "EXCLUIR_MANUTENCAO"
        ("Excluiu log de manutenção ID " ++ id.take 8)]
      else [Event.errorAlert]
  | GatewayOp.addDocument title eid user ok =>
      if ok then [Event.audit eid user "UPLOAD_DOC" ("Upload documento: " ++ title)]
      else [Event.errorAlert]
  | GatewayOp.updateDocument id eid user ok =>
      if ok then [Event.audit eid user "EDITAR_DOC" ("Editou documento ID " ++ id.take 8)]
      else [Event.errorAlert]
  | GatewayOp.deleteDocument _ storedTitle eid user ok =>
      if ok then [Event.audit eid user "EXCLUIR_DOC"
        ("Excluiu documento: " ++ storedTitle.getD "undefined")]
      else [Event.errorAlert]
  | GatewayOp.addDocumentCategory _ _ ok => if ok then [] else [Event.errorAlert]
  | GatewayOp.updateDocumentCategory oldName newName eid user catOk docOk =>
      if !catOk then [Event.errorAlert]
      else if docOk then [Event.audit eid user "EDITAR_CATEGORIA_DOC"
        ("Renomeou categoria doc \"" ++ oldName ++ "\" para \"" ++ newName ++ "\"")]
      else []
  | GatewayOp.deleteDocumentCategory _ _ ok => if ok then [] else [Event.errorAlert]
  | GatewayOp.addStructuralIssue title _ _ notifyAdmin _ eid user ok =>
      if !ok then [Event.errorAlert]
      else
        [Event.audit eid user "REPORTAR_ESTRUTURAL" ("Reportou: " ++ title)]
          ++ (if notifyAdmin = some true then
              [Event.email "Admins" "Novo Problema Estrutural"] else [])
  | GatewayOp.updateStructuralIssue id eid user ok =>
      if ok then [Event.audit eid user "ATUALIZAR_ESTRUTURAL"
        ("Atualizou problema ID " ++ id.take 8)]
      else [Event.errorAlert]
  | GatewayOp.updateStructuralIssueStatus _ status eid user ok =>
      if ok then [Event.audit eid user "ATUALIZAR_ESTRUTURAL_STATUS"
        ("Status alterado para " ++ status.toStr)]
      else [Event.errorAlert]
  | GatewayOp.deleteStructuralIssue id eid user ok =>
      if ok then [Event.audit eid user "EXCLUIR_ESTRUTURAL"
        ("Excluiu problema ID " ++ id.take 8)]
      else [Event.errorAlert]
  | GatewayOp.addStructuralPhoto _ ok => if ok then [] else [Event.errorAlert]
  | GatewayOp.deleteStructuralPhoto _ ok => if ok then [] else [Event.errorAlert]
  | GatewayOp.registerMember eid currentUser email role userExists hasPassword createOk ok =>
      if !userExists && !hasPassword then [Event.validationAlert]
      else if !userExists && !createOk then [Event.errorAlert]
      else if ok then [Event.audit eid currentUser "CADASTRAR_USUARIO"
        ("Cadastrou " ++ toLowerCase (trimString email) ++ " como " ++ role)]
      else [Event.errorAlert]
  | GatewayOp.updateMember eid currentUser targetEmail ok =>
      if ok then [Event.audit eid currentUser "ATUALIZAR_USUARIO"
        ("Atualizou " ++ targetEmail)]
      else [Event.errorAlert]
  | GatewayOp.deleteMember eid currentUser targetEmail ok =>
      if ok then [Event.audit eid currentUser "EXCLUIR_USUARIO"
        ("Removeu acesso de " ++ targetEmail)]
      else [Event.errorAlert]
  | GatewayOp.updateEnterpriseSettings eid user ok =>
      if ok then [Event.audit eid user "ATUALIZAR_CONFIG"
        "Atualizou configurações do condomínio"]
      else [Event.errorAlert]

/-- Whether the decisive remote write of the call succeeded: the write whose
success the source's `logAction` call is conditioned on (for two-write
operations, the conjunction of reaching and succeeding at the audited
write; for `addTask`/`registerMember`, false when client-side validation
aborts before any write). -/
def primaryWriteOk : GatewayOp → Bool
  | GatewayOp.addUnit _ _ _ ok => ok
  | GatewayOp.deleteUnit _ _ _ ok => ok
  | GatewayOp.addWaterReading _ _ _ _ _ _ ok => ok
  | GatewayOp.updateWaterReading _ _ _ ok => ok
  | GatewayOp.deleteWaterReading _ _ _ ok => ok
  | GatewayOp.addTask task _ ok => (task.assignedTo != "") && ok
  | GatewayOp.updateTask _ _ _ _ _ ok => ok
  | GatewayOp.deleteTask _ _ _ _ ok => ok
  | GatewayOp.addTaskComment _ _ _ _ ok => ok
  | GatewayOp.addTaskAttachment _ ok => ok
  | GatewayOp.addCustomAssignee _ _ ok => ok
  | GatewayOp.deleteCustomAssignee _ _ ok => ok
  | GatewayOp.addEquipment _ _ _ ok => ok
  | GatewayOp.updateEquipment _ _ _ ok => ok
  | GatewayOp.deleteEquipment _ _ _ _ ok => ok
  | GatewayOp.addEquipmentImage _ ok => ok
  | GatewayOp.addEquipmentCategory _ _ ok => ok
  | GatewayOp.updateEquipmentCategory _ _ _ _ catOk eqOk => catOk && eqOk
  | GatewayOp.deleteEquipmentCategory _ _ ok => ok
  | GatewayOp.addEquipmentLocation _ _ ok => ok
  | GatewayOp.updateEquipmentLocation _ _ _ _ locOk eqOk => locOk && eqOk
  | GatewayOp.deleteEquipmentLocation _ _ ok => ok
  | GatewayOp.addMaintenanceLog _ _ _ ok => ok
  | GatewayOp.updateMaintenanceLog _ _ _ ok => ok
  | GatewayOp.deleteMaintenanceLog _ _ _ ok => ok
  | GatewayOp.addDocument _ _ _ ok => ok
  | GatewayOp.updateDocument _ _ _ ok => ok
  | GatewayOp.deleteDocument _ _ _ _ ok => ok
  | GatewayOp.addDocumentCategory _ _ ok => ok
  | GatewayOp.updateDocumentCategory _ _ _ _ catOk docOk => catOk && docOk
  | GatewayOp.deleteDocumentCategory _ _ ok => ok
  | GatewayOp.addStructuralIssue _ _ _ _ _ _ _ ok => ok
  | GatewayOp.updateStructuralIssue _ _ _ ok => ok
  | GatewayOp.updateStructuralIssueStatus _ _ _ _ ok => ok
  | GatewayOp.deleteStructuralIssue _ _ _ ok => ok
  | GatewayOp.addStructuralPhoto _ ok => ok
  | GatewayOp.deleteStructuralPhoto _ ok => ok
  | GatewayOp.registerMember _ _ _ _ userExists hasPassword createOk ok =>
      (userExists || (hasPassword && createOk)) && ok
  | GatewayOp.updateMember _ _ _ ok => ok
  | GatewayOp.deleteMember _ _ _ ok => ok
  | GatewayOp.updateEnterpriseSettings _ _ ok => ok

/-- The gateway operations whose source body contains no `logAction` call
at all: they mutate the remote store without ever writing an audit
record. -/
def isSilent : GatewayOp → Bool
  | GatewayOp.addTaskComment _ _ _ _ _ => true
  | GatewayOp.addTaskAttachment _ _ => true
  | GatewayOp.addCustomAssignee _ _ _ => true
  | GatewayOp.deleteCustomAssignee _ _ _ => true
  | GatewayOp.addEquipmentImage _ _ => true
  | GatewayOp.addEquipmentCategory _ _ _ => true
  | GatewayOp.deleteEquipmentCategory _ _ _ => true
  | GatewayOp.addEquipmentLocation _ _ _ => true
  | GatewayOp.deleteEquipmentLocation _ _ _ => true
  | GatewayOp.addDocumentCategory _ _ _ => true
  | GatewayOp.deleteDocumentCategory _ _ _ => true
  | GatewayOp.addStructuralPhoto _ _ => true
  | GatewayOp.deleteStructuralPhoto _ _ => true
  | _ => false

/-- `AdminPanel` notification checkbox state (src/unnamed/part_004,
line 241): `notifications[moduleKey] || false` — an absent key renders as
unchecked. -/
def notifEnabled (notifications : List (String × Bool)) (moduleKey : String) : Bool :=
  (recordGet notifications moduleKey).getD false

/-! ## Auxiliary lemmas -/

theorem mem_orderedInsert {α : Type} (le : α → α → Bool) (a x : α) :
    ∀ l : List α, x ∈ orderedInsert le a l ↔ x = a ∨ x ∈ l := by
  intro l
  induction l with
  | nil => simp [orderedInsert]
  | cons b t ih =>
      simp only [orderedInsert]
      split
      · simp [List.mem_cons]
      · simp only [List.mem_cons, ih]
        tauto

theorem mem_orderedSort {α : Type} (le : α → α → Bool) (x : α) :
    ∀ l : List α, x ∈ orderedSort le l ↔ x ∈ l := by
  intro l
  induction l with
  | nil => simp [orderedSort]
  | cons a t ih =>
      simp only [orderedSort, mem_orderedInsert, ih, List.mem_cons]

theorem string_lt_asymm {a b : String} (h : a < b) : ¬ b < a := asymm h

theorem pickLatest_mem : ∀ (l : List WaterRow) (b : WaterRow), pickLatest l = some b → b ∈ l := by
  intro l
  induction l with
  | nil => intro b h; simp [pickLatest] at h
  | cons a t ih =>
      intro b h
      cases htp : pickLatest t with
      | none =>
          simp only [pickLatest, htp] at h
          exact (Option.some.inj h) ▸ List.mem_cons_self a t
      | some c =>
          simp only [pickLatest, htp] at h
          by_cases hc : a.date < c.date
          · rw [if_pos hc] at h
            exact (Option.some.inj h) ▸ List.mem_cons_of_mem a (ih c htp)
          · rw [if_neg hc] at h
            exact (Option.some.inj h) ▸ List.mem_cons_self a t

theorem pickLatest_eq_of_strict_max (r : WaterRow) :
    ∀ l : List WaterRow, r ∈ l → (∀ b ∈ l, b ≠ r → b.date < r.date) →
      pickLatest l = some r := by
  intro l
  induction l with
  | nil => intro hr; cases hr
  | cons a t ih =>
      intro hr hmax
      by_cases har : a = r
      · subst har
        cases htp : pickLatest t with
        | none => simp only [pickLatest, htp]
        | some b =>
            simp only [pickLatest, htp]
            by_cases hba : b = a
            · subst hba
              rw [if_neg (lt_irrefl _)]
            · have hbd : b.date < a.date :=
                hmax b (List.mem_cons_of_mem _ (pickLatest_mem t b htp)) hba
              rw [if_neg (string_lt_asymm hbd)]
      · have hrt : r ∈ t := by
          rcases List.mem_cons.mp hr with h | h
          · exact absurd h.symm har
          · exact h
        have ih' : pickLatest t = some r :=
          ih hrt (fun b hb hbr => hmax b (List.mem_cons_of_mem _ hb) hbr)
        have had : a.date < r.date := hmax a (List.mem_cons_self _ _) har
        simp only [pickLatest, ih']
        rw [if_pos had]

/-! ## Claim theorems -/

/-- C1. The claim asserts that a READ_WRITE holder's mutation of a
resource-owned entity is rejected before any server mutation unless the
entity's assignee/reporter equals the holder's identity. The task handlers
do enforce this, but the structural-issue handler does not: for a
READ_WRITE holder, `Structural.handleStatusChange` performs the
`db.updateStructuralIssueStatus` server mutation for EVERY issue id and
status — the handler does not even receive the issue's `reportedBy` field
or the holder's email, so an issue reported by another identity is mutated
all the same. -/
theorem structural_status_change_bypasses_ownership (id : String) (newStatus : IssueStatus) :
    handleStatusChange PermissionLevel.READ_WRITE id newStatus = some (id, newStatus) := rfl

/-- C2. Permission resolution is the stored level when the module key is
present and NONE when absent (it never throws: it is a total function);
`Sidebar.hasAccess` shows a module exactly when the resolved value is not
NONE, and `ProtectedRoute` redirects exactly when the resolved value is
NONE. -/
theorem resolve_fail_closed_and_gating (m : Membership) (key : String) :
    (recordGet m.permissions key = none → resolvePermission m key = PermissionLevel.NONE) ∧
    (∀ l, recordGet m.permissions key = some l → resolvePermission m key = l) ∧
    (hasAccess m.permissions key = decide (resolvePermission m key ≠ PermissionLevel.NONE)) ∧
    (ProtectedRoute (some key) m = RouteResult.redirectHome ↔
      resolvePermission m key = PermissionLevel.NONE) := by
  refine ⟨?_, ?_, ?_, ?_⟩
  · intro h; simp [resolvePermission, h]
  · intro l h; simp [resolvePermission, h]
  · unfold hasAccess resolvePermission
    cases recordGet m.permissions key with
    | none => simp
    | some l => cases l <;> simp
  · unfold ProtectedRoute resolvePermission
    split
    · simp_all
    · simp_all

/-- C2 witness: on a membership with an empty permission map, the water
module resolves to NONE. -/
theorem resolve_fail_closed_and_gating_witness :
    resolvePermission
      { enterpriseId := "e1", enterpriseName := "E", role := UserRole.RESIDENT,
        permissions := [], notifications := [] } MODULES_WATER = PermissionLevel.NONE :=
  (resolve_fail_closed_and_gating
    { enterpriseId := "e1", enterpriseName := "E", role := UserRole.RESIDENT,
      permissions := [], notifications := [] } MODULES_WATER).1 rfl

/-- C5. A holder whose resolved tasks-module level for the task's
enterprise is FULL_ACCESS is never blocked by the ownership check:
`handleEditClick` opens the modal and `handleToggleStatus` issues the
`db.updateTask` call, whatever the task's `assignedTo` is. -/
theorem full_access_never_blocked_by_ownership (memberships : List Membership)
    (userEmail : String) (task : Task)
    (h : taskPermOf memberships task = PermissionLevel.FULL_ACCESS) :
    handleEditClick memberships userEmail task = EditClickResult.proceedOpenModal ∧
    handleToggleStatus memberships userEmail task =
      ToggleStatusResult.updateTaskCall task.id
        (if task.status == TaskStatus.COMPLETED then TaskStatus.PENDING
          else TaskStatus.COMPLETED) := by
  unfold handleEditClick handleToggleStatus
  rw [h]
  simp

/-- C5 witness: a FULL_ACCESS holder edits and toggles a task assigned to
a different identity. -/
theorem full_access_never_blocked_by_ownership_witness :
    handleEditClick
      [{ enterpriseId := "e1", enterpriseName := "E", role := UserRole.ADMIN,
         permissions := [(MODULES_TASKS, PermissionLevel.FULL_ACCESS)], notifications := [] }]
      "me@y.com"
      { id := "t1", enterpriseId := "e1", title := "Limpar", assignedTo := "other@x.com",
        status := TaskStatus.PENDING, dueDate := "2024-01-01", description := "",
        notifyAssignee := none } = EditClickResult.proceedOpenModal :=
  (full_access_never_blocked_by_ownership
    [{ enterpriseId := "e1", enterpriseName := "E", role := UserRole.ADMIN,
       permissions := [(MODULES_TASKS, PermissionLevel.FULL_ACCESS)], notifications := [] }]
    "me@y.com"
    { id := "t1", enterpriseId := "e1", title := "Limpar", assignedTo := "other@x.com",
      status := TaskStatus.PENDING, dueDate := "2024-01-01", description := "",
      notifyAssignee := none } (by decide)).1

/-- C6. `deleteMember` removes exactly the membership rows matching both
the enterprise id and the target email: a row survives iff it was stored
and is not such a row, and the surviving table is a sublist (same rows,
same order) of the original. -/
theorem deleteMember_exact_frame (rows : List MembershipRow)
    (currentEnterpriseId targetEmail : String) :
    (∀ m, m ∈ deleteMember rows currentEnterpriseId targetEmail ↔
      m ∈ rows ∧ ¬(m.enterpriseId = currentEnterpriseId ∧ m.userEmail = targetEmail)) ∧
    (deleteMember rows currentEnterpriseId targetEmail).Sublist rows := by
  constructor
  · intro m
    simp [deleteMember, List.mem_filter]
    tauto
  · exact List.filter_sublist rows

/-- C3. When `r` is the stored reading of the unit with the strictly
latest date (among rows of the same enterprise and unit) and the
enterprise has a configured (non-zero) `waterLimit` `l`, `addWaterReading`
computes consumption as the new reading minus `r.reading` and dispatches
the high-consumption alert exactly when that consumption is strictly
greater than `l`. -/
theorem addWaterReading_consumption_and_alert
    (rows : List WaterRow) (settings : EnterpriseSettings) (enterpriseId unit : String)
    (reading : Int) (r : WaterRow) (l : Int)
    (hr : r ∈ rows) (hre : r.enterpriseId = enterpriseId) (hru : r.unit = unit)
    (hmax : ∀ b ∈ rows, b.enterpriseId = enterpriseId → b.unit = unit → b ≠ r →
      b.date < r.date)
    (hl : settings.waterLimit = some l) (hl0 : l ≠ 0) :
    (addWaterReading rows settings enterpriseId unit reading).consumption =
      reading - r.reading ∧
    ((addWaterReading rows settings enterpriseId unit reading).alertSent = true ↔
      reading - r.reading > l) := by
  have hfilter : r ∈ rows.filter (fun b => b.enterpriseId == enterpriseId && b.unit == unit) := by
    refine List.mem_filter.mpr ⟨hr, ?_⟩
    simp [hre, hru]
  have hmax' : ∀ b ∈ rows.filter (fun b => b.enterpriseId == enterpriseId && b.unit == unit),
      b ≠ r → b.date < r.date := by
    intro b hb hbr
    have hmem := List.mem_filter.mp hb
    have hprops := hmem.2
    simp only [Bool.and_eq_true, beq_iff_eq] at hprops
    exact hmax b hmem.1 hprops.1 hprops.2 hbr
  have hpick :
      pickLatest (rows.filter (fun b => b.enterpriseId == enterpriseId && b.unit == unit)) =
        some r :=
    pickLatest_eq_of_strict_max r _ hfilter hmax'
  have hlatest : latestReadingFor rows enterpriseId unit = some r.reading := by
    simp [latestReadingFor, hpick]
  constructor
  · simp [addWaterReading, hlatest]
  · simp [addWaterReading, hlatest, hl, hl0]

/-- C3 witness: previous reading 100, new reading 120 gives consumption 20
and fires the alert for limit 15 (and, checked directly, not for
limit 25). -/
theorem addWaterReading_consumption_and_alert_witness :
    (addWaterReading [⟨"e1", "u1", "2024-01-01", 100⟩] ⟨some 15⟩ "e1" "u1" 120).consumption
        = 20 ∧
    (addWaterReading [⟨"e1", "u1", "2024-01-01", 100⟩] ⟨some 15⟩ "e1" "u1" 120).alertSent
        = true ∧
    (addWaterReading [⟨"e1", "u1", "2024-01-01", 100⟩] ⟨some 25⟩ "e1" "u1" 120).alertSent
        = false := by
  have h := addWaterReading_consumption_and_alert
    [⟨"e1", "u1", "2024-01-01", 100⟩] ⟨some 15⟩ "e1" "u1" 120
    ⟨"e1", "u1", "2024-01-01", 100⟩ 15
    (by decide) (by decide) (by decide) (by decide) rfl (by decide)
  refine ⟨?_, ?_, ?_⟩
  · rw [h.1]; decide
  · exact h.2.mpr (by decide)
  · decide

/-- C9. When the enterprise settings carry no `waterLimit`, or carry the
JS-falsy value 0, the effective limit defaults to 999999 and the alert
fires only for a consumption above 999999 — so a configured limit of 0
disables the alert for any realistic consumption instead of triggering it
on every positive one. -/
theorem waterLimit_fail_open
    (rows : List WaterRow) (settings : EnterpriseSettings) (enterpriseId unit : String)
    (reading : Int)
    (h : settings.waterLimit = none ∨ settings.waterLimit = some 0) :
    (addWaterReading rows settings enterpriseId unit reading).limit = 999999 ∧
    ((addWaterReading rows settings enterpriseId unit reading).alertSent = true ↔
      (addWaterReading rows settings enterpriseId unit reading).consumption > 999999) := by
  rcases h with h | h <;> simp [addWaterReading, h]

/-- C9 witness: with `waterLimit = 0` a positive consumption of 20 does
not fire the alert, and the effective limit is 999999. -/
theorem waterLimit_fail_open_witness :
    (addWaterReading [⟨"e1", "u1", "2024-01-01", 100⟩] ⟨some 0⟩ "e1" "u1" 120).limit
        = 999999 ∧
    (addWaterReading [⟨"e1", "u1", "2024-01-01", 100⟩] ⟨some 0⟩ "e1" "u1" 120).alertSent
        = false :=
  ⟨(waterLimit_fail_open [⟨"e1", "u1", "2024-01-01", 100⟩] ⟨some 0⟩ "e1" "u1" 120
      (Or.inr rfl)).1,
    by decide⟩

/-- C10. For a caller whose tasks-module level is not FULL_ACCESS,
every task returned by `getTasks` is a stored task of the requested
enterprise whose `assigned_to` equals the caller's lowercased email — no
task assigned to another identity is returned. -/
theorem getTasks_restricted_to_own
    (rows : List Task) (userEmail : String) (permissionLevel : PermissionLevel)
    (currentEnterpriseId : String) (t : Task)
    (hperm : permissionLevel ≠ PermissionLevel.FULL_ACCESS)
    (ht : t ∈ getTasks rows userEmail permissionLevel currentEnterpriseId) :
    t ∈ rows ∧ t.enterpriseId = currentEnterpriseId ∧
      t.assignedTo = toLowerCase userEmail := by
  unfold getTasks at ht
  rw [mem_orderedSort] at ht
  have hbne : (permissionLevel != PermissionLevel.FULL_ACCESS) = true := by
    simp [bne_iff_ne, hperm]
  rw [if_pos hbne] at ht
  have h2 := List.mem_filter.mp ht
  have h1 := List.mem_filter.mp h2.1
  exact ⟨h1.1, eq_of_beq h1.2, eq_of_beq h2.2⟩

/-- C10 witness: a READ_WRITE caller receives their own task, and the
theorem pins its enterprise and assignee. -/
theorem getTasks_restricted_to_own_witness :
    (⟨"t1", "e1", "Limpar", "a@b.com", TaskStatus.PENDING, "2024-01-01", "", none⟩ : Task) ∈
        [(⟨"t1", "e1", "Limpar", "a@b.com", TaskStatus.PENDING, "2024-01-01", "", none⟩ : Task)] ∧
    (⟨"t1", "e1", "Limpar", "a@b.com", TaskStatus.PENDING, "2024-01-01", "", none⟩ :
        Task).enterpriseId = "e1" ∧
    (⟨"t1", "e1", "Limpar", "a@b.com", TaskStatus.PENDING, "2024-01-01", "", none⟩ :
        Task).assignedTo = toLowerCase "A@B.com" :=
  getTasks_restricted_to_own
    [⟨"t1", "e1", "Limpar", "a@b.com", TaskStatus.PENDING, "2024-01-01", "", none⟩]
    "A@B.com" PermissionLevel.READ_WRITE "e1"
    ⟨"t1", "e1", "Limpar", "a@b.com", TaskStatus.PENDING, "2024-01-01", "", none⟩
    (by decide) (by decide)

/-- C4 counterexample: `db.addDocumentCategory` performs its remote insert
(decisive write succeeds) yet writes zero audit records — so it is not the
case that every mutating gateway operation logs exactly one audit record
after a successful write. -/
theorem gateway_audit_not_universal :
    primaryWriteOk (GatewayOp.addDocumentCategory "Geral" "e1" true) = true ∧
    countAudit (gatewayTrace (GatewayOp.addDocumentCategory "Geral" "e1" true)) = 0 := by
  decide

/-- C4 amended: a mutating gateway operation writes exactly one audit
record when its decisive remote write succeeds AND it is not one of the
silent operations (task comments/attachments, custom assignees, equipment
images, equipment/document categories and locations, structural photos),
and writes none otherwise. -/
theorem gateway_audit_exactly_where_logged (op : GatewayOp) :
    countAudit (gatewayTrace op) =
      if primaryWriteOk op && !isSilent op then 1 else 0 := by
  cases op <;>
    simp only [gatewayTrace, primaryWriteOk, isSilent] <;>
    (repeat' split) <;>
    simp_all [countAudit, isAuditEvt, isEmailEvt, List.countP_cons, List.countP_nil,
      List.countP_append]

/-- C7 counterexample: `db.addTask` on a task whose `notifyAssignee` is
unset (absent) DOES dispatch the new-task email (the source checks
`task.notifyAssignee !== false`, a fail-open default), contradicting the
claim that an unset preference dispatches no notification. -/
theorem addTask_unset_notify_still_emails :
    (({ id := "t1", enterpriseId := "e1", title := "Limpar piscina",
        assignedTo := "bob@x.com", status := TaskStatus.PENDING,
        dueDate := "2024-01-01", description := "",
        notifyAssignee := none } : Task).notifyAssignee = none) ∧
    countEmail (gatewayTrace (GatewayOp.addTask
      { id := "t1", enterpriseId := "e1", title := "Limpar piscina",
        assignedTo := "bob@x.com", status := TaskStatus.PENDING,
        dueDate := "2024-01-01", description := "",
        notifyAssignee := none } "admin@x.com" true)) = 1 := by
  decide

/-- C7 amended: an absent module key in a membership's notifications map
renders as "do not notify" in the admin panel, and structural-issue
creation with `notifyAdmin` unset dispatches no admin alert; but task
creation with `notifyAssignee` unset defaults to notifying and dispatches
the assignee email. -/
theorem notification_defaulting (notifs : List (String × Bool)) (key : String)
    (task : Task) (userEmail : String)
    (title location reportedBy enterpriseId userEmail2 : String) (photos : Nat)
    (hn : recordGet notifs key = none)
    (hta : task.notifyAssignee = none) (hne : task.assignedTo ≠ "") :
    notifEnabled notifs key = false ∧
    countEmail (gatewayTrace (GatewayOp.addTask task userEmail true)) = 1 ∧
    countEmail (gatewayTrace (GatewayOp.addStructuralIssue title location reportedBy
      none photos enterpriseId userEmail2 true)) = 0 := by
  refine ⟨?_, ?_, ?_⟩
  · simp [notifEnabled, hn]
  · simp [gatewayTrace, countEmail, isEmailEvt, hta, hne, List.countP_cons,
      List.countP_append, List.countP_nil]
  · simp [gatewayTrace, countEmail, isEmailEvt, List.countP_cons, List.countP_append,
      List.countP_nil]

/-- C7 witness: concrete instance of the amended behaviour. -/
theorem notification_defaulting_witness :
    notifEnabled [] MODULES_TASKS = false ∧
    countEmail (gatewayTrace (GatewayOp.addTask
      { id := "t1", enterpriseId := "e1", title := "T", assignedTo := "bob@x.com",
        status := TaskStatus.PENDING, dueDate := "2024-01-01", description := "",
        notifyAssignee := none } "admin@x.com" true)) = 1 ∧
    countEmail (gatewayTrace (GatewayOp.addStructuralIssue "Rachadura" "Garagem"
      "bob@x.com" none 0 "e1" "admin@x.com" true)) = 0 :=
  notification_defaulting [] MODULES_TASKS
    { id := "t1", enterpriseId := "e1", title := "T", assignedTo := "bob@x.com",
      status := TaskStatus.PENDING, dueDate := "2024-01-01", description := "",
      notifyAssignee := none } "admin@x.com"
    "Rachadura" "Garagem" "bob@x.com" "e1" "admin@x.com" 0
    rfl rfl (by decide)

/-- C8 counterexample: a credential-matching `app_users` record exists
(email already normalized, hash matches), yet `login` returns null because
the user has no membership rows — refuting "returns a user exactly when a
matching record exists". -/
theorem login_memberless_counterexample :
    (∃ u ∈ ([{ email := "a@b.com", name := some "Ana", passwordHash := "hv" }] :
        List AppUser),
      u.email = toLowerCase (trimString "a@b.com") ∧
      u.passwordHash = (fun _ => "hv") "pw") ∧
    login (fun _ => "hv") [{ email := "a@b.com", name := some "Ana", passwordHash := "hv" }]
      [] [] "a@b.com" "pw" = none := by
  decide

/-- C8 amended: `login` returns a user exactly when a record matching the
trimmed, lowercased input email and the hashed password exists AND at
least one membership row exists for that normalized email. -/
theorem login_isSome_iff (hashPassword : String → String) (users : List AppUser)
    (membershipRows : List MembershipRow) (enterprises : List EnterpriseRow)
    (email password : String) :
    (login hashPassword users membershipRows enterprises email password).isSome = true ↔
      ((∃ u ∈ users, u.email = toLowerCase (trimString email) ∧
          u.passwordHash = hashPassword password) ∧
        ∃ m ∈ membershipRows, m.userEmail = toLowerCase (trimString email)) := by
  simp only [login]
  cases hfind : users.find? (fun u => u.email == toLowerCase (trimString email)
      && u.passwordHash == hashPassword password) with
  | none =>
      simp only [hfind, Option.isSome_none, Bool.false_eq_true, false_iff, not_and]
      rintro ⟨u, hu, h1, h2⟩
      have hnone := List.find?_eq_none.mp hfind u hu
      simp [h1, h2] at hnone
  | some u =>
      simp only [hfind]
      have hu_mem := List.mem_of_find?_eq_some hfind
      have hu_p := List.find?_some hfind
      simp only [Bool.and_eq_true, beq_iff_eq] at hu_p
      by_cases hemp :
          (membershipRows.filter (fun m => m.userEmail == toLowerCase (trimString email))).isEmpty
            = true
      · have hnil : membershipRows.filter
            (fun m => m.userEmail == toLowerCase (trimString email)) = [] := by
          simpa [List.isEmpty_iff] using hemp
        rw [if_pos hemp]
        simp only [Option.isSome_none, Bool.false_eq_true, false_iff, not_and]
        rintro _ ⟨m, hm, hmeq⟩
        have hmf : m ∈ membershipRows.filter
            (fun m => m.userEmail == toLowerCase (trimString email)) :=
          List.mem_filter.mpr ⟨hm, by simp [hmeq]⟩
        rw [hnil] at hmf
        exact absurd hmf (List.not_mem_nil m)
      · rw [if_neg hemp]
        simp only [Option.isSome_some, true_iff]
        refine ⟨⟨u, hu_mem, hu_p.1, hu_p.2⟩, ?_⟩
        have hne : membershipRows.filter
            (fun m => m.userEmail == toLowerCase (trimString email)) ≠ [] := by
          simpa [List.isEmpty_iff] using hemp
        obtain ⟨m, hm⟩ := List.exists_mem_of_ne_nil _ hne
        have hm' := List.mem_filter.mp hm
        exact ⟨m, hm'.1, eq_of_beq hm'.2⟩

end SindGestor
